import Mathlib

/-!
Shallow embedding of `src/app.py` (onchainengineering/computer-use-py).

The repository is a Gradio/FastAPI glue layer around an external agent loop
(`computer_use_demo.loop.sampling_loop_sync`).  We embed the pure content of
the state-handling, rendering, relay and orchestration functions of
`src/app.py`; external effects (filesystem, environment variables, the two
LLM backends, base64 decoding) are modelled as explicit parameters.
-/

namespace App

/-! ## Filesystem model (for `load_from_storage` / `save_to_storage`)

The two storage helpers in `src/app.py` touch files under `CONFIG_DIR`.
We model the directory as a map from filename to optional content, plus
flags describing which operations succeed: `readRaises name` means
`file_path.read_text()` raises for that file, `dirWritable` means the
`mkdir`/`write_text`/`chmod` sequence in `save_to_storage` succeeds
(e.g. it is `false` for a read-only config directory). -/

structure FS where
  files : String → Option String
  readRaises : String → Bool
  dirWritable : Bool

/-- `load_from_storage` (src/app.py:126-136): inside a try/except it checks
`file_path.exists()`, reads and strips the text, and returns it when
non-empty; any exception is caught and the function returns `None`.
Python `str.strip()` is modelled by `String.trim` (ASCII whitespace). -/
def load_from_storage (fs : FS) (filename : String) : Option String :=
  match fs.files filename with
  | none => none
  | some content =>
    if fs.readRaises filename then none
    else
      let data := content.trim
      if data ≠ "" then some data else none

/-- `save_to_storage` (src/app.py:139-148): inside a try/except it makes the
config directory, writes the file and chmods it to `0o600`; any exception is
caught (logged) and the function returns normally. When the directory is not
writable the write raises, so the filesystem is left unchanged. -/
def save_to_storage (fs : FS) (filename : String) (data : String) : FS :=
  if fs.dirWritable then
    { fs with
      files := fun n => if n = filename then some data else fs.files n }
  else fs

/-! ## Session State and `setup_state` -/

/-- `Sender` enum (src/app.py:57-60). -/
inductive Sender where
  | USER
  | BOT
  | TOOL
deriving DecidableEq, Repr

/-- A conversation message appended to `state["messages"]`.  The glue code
itself only appends `{"role": Sender.USER, "content": [TextBlock(...)]}`
entries; the external sampling loop appends further entries of shapes we do
not inspect, modelled by the `external` constructor. -/
inductive ChatMsg where
  | user (text : String)
  | external (tag : String)
deriving DecidableEq, Repr

/-- The `state` dictionary managed by `setup_state` (src/app.py:63-92).
Each key of the Python dict is a field; `none` means the key is absent. -/
structure SessionState where
  messages : Option (List ChatMsg)
  api_key : Option String
  provider : Option String
  provider_radio : Option String
  model : Option String
  auth_validated : Option Bool
  responses : Option (List (String × String))
  tools : Option (List (String × String))
  only_n_most_recent_images : Option Nat
  custom_system_prompt : Option String
  hide_images : Option Bool
deriving DecidableEq, Repr

/-- The fresh `state = {}` dictionary built by the HTTP handlers. -/
def emptyState : SessionState :=
  ⟨none, none, none, none, none, none, none, none, none, none, none⟩

/-- The module-level constant `ANTHROPIC_KEY` (src/app.py:54). -/
def ANTHROPIC_KEY : String :=
  "*************************FILL THE API KEY************************"

/-- Ambient environment consulted by `setup_state`: the `API_PROVIDER`
environment variable, the `PROVIDER_TO_DEFAULT_MODEL_NAME` table imported
from the external `computer_use_demo.loop` module, the result of
`platform.system()`, and the filesystem holding `CONFIG_DIR`. -/
structure Env where
  apiProviderVar : Option String
  providerToDefaultModel : String → String
  platformSystem : String
  fs : FS

/-- `os.getenv("API_PROVIDER", "anthropic") or APIProvider.ANTHROPIC`
(src/app.py:73): the default `"anthropic"` is used when the variable is
unset, and the `or` fallback fires when it is set to the empty string. -/
def providerDefault (env : Env) : String :=
  match env.apiProviderVar with
  | none => "anthropic"
  | some v => if v = "" then "anthropic" else v

/-- `device_os_name` (src/app.py:89). -/
def deviceOsName (env : Env) : String :=
  if env.platformSystem = "Windows" then "Windows"
  else if env.platformSystem = "Darwin" then "Mac"
  else "Linux"

/-- Default for `state["custom_system_prompt"]` (src/app.py:86-90):
`load_from_storage("system_prompt") or ""` with the platform note appended. -/
def customSystemPromptDefault (env : Env) : String :=
  (load_from_storage env.fs "system_prompt").getD ""
    ++ "\n\nNOTE: you are operating a " ++ deviceOsName env ++ " machine"

/-- `setup_state` (src/app.py:63-92): every required key that is absent is
set to its default; keys already present are left untouched.  The keys are
filled in the source's order: `provider_radio` and `model` read
`state["provider"]` after the `provider` key has been ensured, which is
`providerVal` below. -/
def setup_state (env : Env) (s : SessionState) : SessionState :=
  let providerVal := s.provider.getD (providerDefault env)
  { messages := some (s.messages.getD [])
    api_key := some (s.api_key.getD ANTHROPIC_KEY)
    provider := some providerVal
    provider_radio := some (s.provider_radio.getD providerVal)
    model := some (s.model.getD (env.providerToDefaultModel providerVal))
    auth_validated := some (s.auth_validated.getD false)
    responses := some (s.responses.getD [])
    tools := some (s.tools.getD [])
    only_n_most_recent_images := some (s.only_n_most_recent_images.getD 2)
    custom_system_prompt :=
      some (s.custom_system_prompt.getD (customSystemPromptDefault env))
    hide_images := some (s.hide_images.getD false) }

/-! ## Message Renderer (`_render_message`, src/app.py:160-186) -/

/-- `ToolResult` from the external `computer_use_demo.tools` module.
Modelled from the spec: "optional text output, optional error text,
optional base64-encoded image payload"; `none` is Python `None`. -/
structure ToolResult where
  output : Option String
  error : Option String
  base64_image : Option String
deriving DecidableEq, Repr

/-- Python truthiness of an `Option String` field: `None` and `""` are
falsy, any other string is truthy. -/
def optTruthy : Option String → Bool
  | none => false
  | some s => s ≠ ""

/-- The message argument of `_render_message`:
`str | BetaTextBlock | BetaToolUseBlock | ToolResult` (src/app.py:160). -/
inductive RMessage where
  | str (s : String)
  | betaTextBlock (text : String)
  | betaToolUseBlock (name : String) (input : String)
  | toolResult (r : ToolResult)
deriving DecidableEq, Repr

/-- `is_tool_result` (src/app.py:161-165): true for `ToolResult` values (and
their `CLIResult` subclass, which carries the same fields). -/
def is_tool_result : RMessage → Bool
  | .toolResult _ => true
  | _ => false

/-- Python `not message` (src/app.py:166): an empty `str` is falsy; pydantic
block objects are always truthy; `ToolResult.__bool__` (modelled from the
spec's data model for the external class, a dataclass whose truthiness is
`any` of its fields) is falsy exactly when every field is falsy. -/
def messageFalsy : RMessage → Bool
  | .str s => s = ""
  | .betaTextBlock _ => false
  | .betaToolUseBlock _ _ => false
  | .toolResult r =>
    !(optTruthy r.output || optTruthy r.error || optTruthy r.base64_image)

/-- `hasattr(message, "error")` (src/app.py:169): a `ToolResult` dataclass
instance always has the `error` attribute (whatever its value), so this is
true for every tool result; the other shapes have no such attribute. -/
def hasattrError : RMessage → Bool
  | .toolResult _ => true
  | _ => false

/-- `hasattr(message, "output")` (src/app.py:170): as with `hasattrError`,
always true for a `ToolResult`. -/
def hasattrOutput : RMessage → Bool
  | .toolResult _ => true
  | _ => false

/-- What `_render_message` returns: `None`, a text value, or raw bytes from
`base64.b64decode`. -/
inductive Rendered where
  | text (s : String)
  | bytes (b : List UInt8)
deriving DecidableEq, Repr

/-- `_render_message` (src/app.py:160-186).  `b64decode` stands for the
stdlib `base64.b64decode`; `hide_images` is `state["hide_images"]`, the only
state key the function reads (callers run `setup_state` first, so the key is
present).  The `sender` argument is accepted and, as in the source, unused. -/
def _render_message (b64decode : String → List UInt8) (sender : Sender)
    (message : RMessage) (hide_images : Bool) : Option Rendered :=
  if messageFalsy message
      || (is_tool_result message && hide_images
          && !hasattrError message && !hasattrOutput message) then
    none
  else
    match message with
    | .toolResult r =>
      if optTruthy r.output then some (.text (r.output.getD ""))
      else if optTruthy r.error then
        some (.text ("Error: " ++ r.error.getD ""))
      else if optTruthy r.base64_image && !hide_images then
        some (.bytes (b64decode (r.base64_image.getD "")))
      else none
    | .betaTextBlock text => some (.text text)
    | .betaToolUseBlock name input =>
      some (.text ("Tool Use: " ++ name ++ "\nInput: " ++ input))
    | .str s => some (.text s)

/-! ## Streaming relay (`accumulate_messages`, `message_generator`) -/

/-- The helper loop of `accumulate_messages` (src/app.py:221-234), with the
`accumulated_messages` list made explicit: a message already in the
accumulator is skipped, otherwise it is appended and yielded. -/
def accumulate_from {α : Type} [DecidableEq α] :
    List α → List α → List α
  | _, [] => []
  | acc, m :: rest =>
    if m ∈ acc then accumulate_from acc rest
    else m :: accumulate_from (acc ++ [m]) rest

/-- `accumulate_messages` (src/app.py:221-234) as a function of the sequence
the external `sampling_loop_sync` yields: starts with an empty
`accumulated_messages` list and yields each not-yet-seen message. -/
def accumulate_messages {α : Type} [DecidableEq α] (msgs : List α) : List α :=
  accumulate_from [] msgs

/-- One run of the external adapter sequence as observed by a relay loop:
the messages it yields, then optionally an exception (its message text)
terminating the sequence early. -/
structure AdapterRun where
  msgs : List String
  exc : Option String

/-- Helper loop of `message_generator`: iterate `accumulate_messages` over
the adapter's yields, formatting each new message as an SSE chunk; when the
sequence ends with an exception the `except` branch yields the single error
chunk. -/
def message_generator_from (exc : Option String) :
    List String → List String → List String
  | _, [] =>
    match exc with
    | none => []
    | some e => ["data: Error: " ++ e ++ "\n\n"]
  | acc, m :: rest =>
    if m ∈ acc then message_generator_from exc acc rest
    else ("data: " ++ m ++ "\n\n") :: message_generator_from exc (acc ++ [m]) rest

/-- `message_generator` inside `process_input_api` (src/app.py:441-458):
relays each message from `accumulate_messages` as one `data: <message>\n\n`
chunk and converts a raised exception into a single terminal
`data: Error: <message>\n\n` chunk. -/
def message_generator (run : AdapterRun) : List String :=
  message_generator_from run.exc [] run.msgs

/-! ## HTTP endpoint `/api/process-input` (`process_input_api`,
src/app.py:414-461) -/

/-- The parts of the inbound request the handler consults: the
`anthropic-api-key` header and the JSON body.  `body = none` models a body
that `await request.json()` fails to parse; otherwise `userInput` is
`data.get("user_input")`. -/
structure JsonBody where
  userInput : Option String
deriving DecidableEq, Repr

structure HttpRequest where
  anthropicApiKey : Option String
  body : Option JsonBody

/-- Observable outcome of `process_input_api`. -/
inductive ApiResult where
  | parseError
  | unauthorized
  | stream (chunks : List String)
deriving DecidableEq, Repr

/-- What the handler did with the request, in the order the source performs
it: `bodyParseAttempted` records that `await request.json()` ran (it is the
first statement of the handler), `agentInvoked` that the agent loop was
driven. -/
structure ApiTrace where
  bodyParseAttempted : Bool
  agentInvoked : Bool
  result : ApiResult
deriving DecidableEq, Repr

/-- `process_input_api` (src/app.py:414-461): parses the JSON body first,
then reads the `anthropic-api-key` header and raises a 401 `HTTPException`
when it is absent or empty (`if not api_key`), and otherwise builds a fresh
state and returns the streaming relay over the adapter run. -/
def process_input_api (req : HttpRequest) (run : AdapterRun) : ApiTrace :=
  match req.body with
  | none => ⟨true, false, .parseError⟩
  | some _ =>
    match req.anthropicApiKey with
    | none => ⟨true, false, .unauthorized⟩
    | some key =>
      if key = "" then ⟨true, false, .unauthorized⟩
      else ⟨true, true, .stream (message_generator run)⟩

/-! ## Secondary Orchestrator (`process_input_loop`, src/app.py:466-557) -/

/-- Python `str.upper()` over the string's characters, restricted to the
ASCII mapping of `Char.toUpper`; the sentinel `"FINAL RESPONSE"` is ASCII,
where the two mappings agree. -/
def upperChars : List Char → List Char
  | [] => []
  | c :: rest => c.toUpper :: upperChars rest

/-- Whether `pre` occurs at the start of `l`. -/
def leadsWith : List Char → List Char → Bool
  | [], _ => true
  | _ :: _, [] => false
  | a :: pre, b :: l => a = b && leadsWith pre l

/-- Python substring containment `needle in hay` over character lists. -/
def containsChars (needle : List Char) : List Char → Bool
  | [] => leadsWith needle []
  | c :: rest => leadsWith needle (c :: rest) || containsChars needle rest

/-- The termination test of the loop (src/app.py:541):
`"FINAL RESPONSE" in followup_content.upper()`. -/
def sentinelTriggered (reply : String) : Bool :=
  containsChars "FINAL RESPONSE".data (upperChars reply.data)

/-- The external behaviour driving one run of `process_input_loop`.
`planReply` is `openai_response.choices[0].message.content.strip()`, the
first `current_prompt`; `agentRaises i` says whether the agent loop raises
on iteration `i`; `agentLast i` is the value bound to `message` after
iteration `i`'s relay loop; `agentAppend i` is what the external sampling
loop appends to `state["messages"]` during iteration `i`; `followup i m` is
`openai_followup.choices[0].message.content.strip()`, the stripped
follow-up reply, as a function of the iteration and last agent message. -/
structure OrchEnv where
  planReply : String
  agentRaises : Nat → Bool
  agentLast : Nat → String
  agentAppend : Nat → List ChatMsg
  followup : Nat → String → String

/-- Control states of the orchestration loop: `EXECUTE p` is about to drive
the agent loop on prompt `p`; `DECIDE m` is about to ask OpenAI about the
last agent message `m`; `DONE` is the `break` after the sentinel check;
`FAILED` is the `break` in the inner `except` branch. -/
inductive OrchPhase where
  | EXECUTE (prompt : String)
  | DECIDE (lastMsg : String)
  | DONE
  | FAILED
deriving DecidableEq, Repr

/-- One transition of the orchestration loop of `process_input_loop`
(src/app.py:491-546), with the iteration counter carried alongside the
phase.  From `EXECUTE`: an exception in the relay loop breaks to `FAILED`,
otherwise control reaches the follow-up call (`DECIDE`).  From `DECIDE`: if
the follow-up reply contains the sentinel the loop breaks to `DONE`,
otherwise the reply becomes the next prompt.  `DONE`/`FAILED` are the
states after `break`: the generator has returned and performs no further
transitions. -/
def orchStep (env : OrchEnv) : Nat × OrchPhase → Nat × OrchPhase
  | (i, .EXECUTE _) =>
    if env.agentRaises i then (i, .FAILED) else (i, .DECIDE (env.agentLast i))
  | (i, .DECIDE m) =>
    if sentinelTriggered (env.followup i m) then (i, .DONE)
    else (i + 1, .EXECUTE (env.followup i m))
  | (i, .DONE) => (i, .DONE)
  | (i, .FAILED) => (i, .FAILED)

/-- `n` transitions of the orchestration loop. -/
def orchIter (env : OrchEnv) (n : Nat) (s : Nat × OrchPhase) : Nat × OrchPhase :=
  (orchStep env)^[n] s

/-- One `EXECUTE` iteration as observed at its start: the content of
`state["messages"]` when the iteration begins, and the `current_prompt` it
appends. -/
structure ExecRecord where
  startMessages : List ChatMsg
  prompt : String
deriving DecidableEq, Repr

/-- The `while True` loop of `process_input_loop` (src/app.py:491-546),
recording each `EXECUTE` iteration.  The session state is the `msgs`
accumulator: the iteration appends `{"role": USER, "content": [prompt]}`,
the external sampling loop appends `agentAppend i`, and on success and no
sentinel the follow-up reply becomes the next prompt.  `fuel` bounds the
number of iterations we observe (the source loop itself is unbounded). -/
def orchLoopRun (env : OrchEnv) :
    Nat → Nat → List ChatMsg → String → List ExecRecord
  | 0, _, _, _ => []
  | fuel + 1, i, msgs, p =>
    let here : ExecRecord := ⟨msgs, p⟩
    if env.agentRaises i then [here]
    else
      let msgs2 := (msgs ++ [ChatMsg.user p]) ++ env.agentAppend i
      let reply := env.followup i (env.agentLast i)
      if sentinelTriggered reply then [here]
      else here :: orchLoopRun env fuel (i + 1) msgs2 reply

/-- The `EXECUTE` iterations of one run of `process_input_loop`
(src/app.py:466-546): `state = {}` then `setup_state(state)` is executed
once, before the loop, so `state["messages"]` starts as `[]`; the first
prompt is the stripped initial OpenAI reply. -/
def orchExecRecords (env : OrchEnv) (fuel : Nat) : List ExecRecord :=
  orchLoopRun env fuel 0 [] env.planReply

/-! ## Hard-coded credential of `/api/process_input_api_using_model` -/

/-- The literal assigned to `state["api_key"]` in `process_input_loop`
(src/app.py:489). -/
def LOOP_HARDCODED_KEY : String :=
  "**********************************************************************"

/-- The session state `process_input_loop` builds before entering its loop
(src/app.py:487-489): `state = {}`, `setup_state(state)`, then
`state["api_key"]` is overwritten with the hard-coded literal.  The
endpoint's only request datum is the `user_input` form field, passed here
to exhibit that the state does not depend on it. -/
def process_input_loop_state (env : Env) (user_input : String) : SessionState :=
  let s := setup_state env emptyState
  { s with api_key := some LOOP_HARDCODED_KEY }

/-! ## Concrete sample values used to instantiate the theorems -/

/-- A filesystem with a writable directory and one stored file. -/
def fsSample : FS :=
  ⟨fun n => if n = "api_key" then some "sk-key\n" else none,
   fun _ => false, true⟩

/-- A read-only config directory holding nothing. -/
def fsReadOnly : FS := ⟨fun _ => none, fun _ => false, false⟩

/-- A sample ambient environment. -/
def envSample : Env :=
  ⟨none, fun _ => "claude-3-5-sonnet-20241022", "Linux", fsSample⟩

/-- A state dictionary that already holds an `api_key` entry. -/
def stateWithKey : SessionState :=
  { emptyState with api_key := some "user-key" }

/-- A concrete stand-in for `base64.b64decode` used to instantiate the
renderer theorems. -/
def b64Sample : String → List UInt8 := fun s => s.toUTF8.toList

/-- A request to `/api/process-input` with a well-formed JSON body and no
`anthropic-api-key` header. -/
def reqNoKey : HttpRequest := ⟨none, some ⟨some "hello"⟩⟩

/-- An adapter run yielding a duplicated message and ending in an
exception. -/
def runSample : AdapterRun := ⟨["a", "a"], some "boom"⟩

/-- An adapter run that completes without raising. -/
def runClean : AdapterRun := ⟨[], none⟩

/-- Orchestration environment whose planner immediately answers with the
sentinel and whose agent loop raises. -/
def orchEnvSentinel : OrchEnv :=
  ⟨"p0", fun _ => true, fun _ => "last", fun _ => [], fun _ _ => "FINAL RESPONSE"⟩

/-- Orchestration environment whose agent loop succeeds and whose planner
never emits the sentinel: the loop keeps iterating. -/
def orchEnvLooping : OrchEnv :=
  ⟨"p0", fun _ => false, fun _ => "last", fun _ => [ChatMsg.external "assistant"],
   fun _ _ => "continue"⟩

/-! ## Helper lemmas -/

/-- Membership in the accumulator loop: a value is yielded exactly when it
occurs in the remaining input and is not already accumulated. -/
theorem mem_accumulate_from {α : Type} [DecidableEq α] (x : α) :
    ∀ (l acc : List α), x ∈ accumulate_from acc l ↔ x ∉ acc ∧ x ∈ l := by
  intro l
  induction l with
  | nil => intro acc; simp [accumulate_from]
  | cons m rest ih =>
    intro acc
    by_cases hm : m ∈ acc
    · rw [accumulate_from, if_pos hm, ih]
      constructor
      · rintro ⟨hna, hr⟩
        exact ⟨hna, List.mem_cons_of_mem _ hr⟩
      · rintro ⟨hna, hmem⟩
        rcases List.mem_cons.mp hmem with h | h
        · exact absurd (h ▸ hm) hna
        · exact ⟨hna, h⟩
    · rw [accumulate_from, if_neg hm]
      constructor
      · intro hmem
        rcases List.mem_cons.mp hmem with h | h
        · subst h
          exact ⟨hm, List.mem_cons_self _ _⟩
        · have hx := (ih (acc ++ [m])).mp h
          exact ⟨fun hacc => hx.1 (List.mem_append_left _ hacc),
            List.mem_cons_of_mem _ hx.2⟩
      · rintro ⟨hna, hmem⟩
        rcases List.mem_cons.mp hmem with h | h
        · subst h
          exact List.mem_cons_self _ _
        · by_cases hxm : x = m
          · subst hxm
            exact List.mem_cons_self _ _
          · refine List.mem_cons_of_mem _ ((ih (acc ++ [m])).mpr ⟨?_, h⟩)
            intro hx
            rcases List.mem_append.mp hx with h1 | h1
            · exact hna h1
            · exact hxm (List.mem_singleton.mp h1)

/-- The accumulator loop never yields a value twice. -/
theorem nodup_accumulate_from {α : Type} [DecidableEq α] :
    ∀ (l acc : List α), (accumulate_from acc l).Nodup := by
  intro l
  induction l with
  | nil => intro acc; simp [accumulate_from]
  | cons m rest ih =>
    intro acc
    by_cases hm : m ∈ acc
    · rw [accumulate_from, if_pos hm]
      exact ih acc
    · rw [accumulate_from, if_neg hm]
      refine List.nodup_cons.mpr ⟨?_, ih (acc ++ [m])⟩
      intro hmem
      have hx := (mem_accumulate_from m rest (acc ++ [m])).mp hmem
      exact hx.1 (List.mem_append_right _ (List.mem_singleton.mpr rfl))

/-! ## Claim theorems -/

/-- C1: `setup_state` is idempotent and non-destructive — a second call
leaves the state unchanged, every key present before a call keeps its
value, and every required key is present (with its default where it was
absent) after a call. -/
theorem setup_state_idempotent_nondestructive (env : Env) (s : SessionState) :
    setup_state env (setup_state env s) = setup_state env s
    ∧ (∀ v, s.messages = some v → (setup_state env s).messages = some v)
    ∧ (∀ v, s.api_key = some v → (setup_state env s).api_key = some v)
    ∧ (∀ v, s.provider = some v → (setup_state env s).provider = some v)
    ∧ (∀ v, s.provider_radio = some v →
        (setup_state env s).provider_radio = some v)
    ∧ (∀ v, s.model = some v → (setup_state env s).model = some v)
    ∧ (∀ v, s.auth_validated = some v →
        (setup_state env s).auth_validated = some v)
    ∧ (∀ v, s.responses = some v → (setup_state env s).responses = some v)
    ∧ (∀ v, s.tools = some v → (setup_state env s).tools = some v)
    ∧ (∀ v, s.only_n_most_recent_images = some v →
        (setup_state env s).only_n_most_recent_images = some v)
    ∧ (∀ v, s.custom_system_prompt = some v →
        (setup_state env s).custom_system_prompt = some v)
    ∧ (∀ v, s.hide_images = some v → (setup_state env s).hide_images = some v)
    ∧ ((setup_state env s).messages.isSome = true
       ∧ (setup_state env s).api_key.isSome = true
       ∧ (setup_state env s).provider.isSome = true
       ∧ (setup_state env s).provider_radio.isSome = true
       ∧ (setup_state env s).model.isSome = true
       ∧ (setup_state env s).auth_validated.isSome = true
       ∧ (setup_state env s).responses.isSome = true
       ∧ (setup_state env s).tools.isSome = true
       ∧ (setup_state env s).only_n_most_recent_images.isSome = true
       ∧ (setup_state env s).custom_system_prompt.isSome = true
       ∧ (setup_state env s).hide_images.isSome = true) := by
  refine ⟨?_, ?_, ?_, ?_, ?_, ?_, ?_, ?_, ?_, ?_, ?_, ?_, ?_⟩
  · simp [setup_state]
  · intro v h; simp [setup_state, h]
  · intro v h; simp [setup_state, h]
  · intro v h; simp [setup_state, h]
  · intro v h; simp [setup_state, h]
  · intro v h; simp [setup_state, h]
  · intro v h; simp [setup_state, h]
  · intro v h; simp [setup_state, h]
  · intro v h; simp [setup_state, h]
  · intro v h; simp [setup_state, h]
  · intro v h; simp [setup_state, h]
  · intro v h; simp [setup_state, h]
  · simp [setup_state]

/-- C1 witness: on a concrete environment and a state that already holds an
`api_key`, a second `setup_state` is a no-op, the held key survives, and the
`hide_images` key is populated. -/
theorem setup_state_idempotent_nondestructive_witness :
    setup_state envSample (setup_state envSample stateWithKey)
        = setup_state envSample stateWithKey
    ∧ (setup_state envSample stateWithKey).api_key = some "user-key"
    ∧ (setup_state envSample stateWithKey).hide_images.isSome = true := by
  obtain ⟨h1, _, h3, _, _, _, _, _, _, _, _, _, hp⟩ :=
    setup_state_idempotent_nondestructive envSample stateWithKey
  exact ⟨h1, h3 "user-key" rfl, hp.2.2.2.2.2.2.2.2.2.2⟩

/-- C4: in one relay call, every message value yielded by the adapter is
emitted, and no value is emitted more than once (a duplicated yield is
emitted exactly once). -/
theorem accumulate_messages_emits_each_once {α : Type} [DecidableEq α]
    (msgs : List α) :
    (accumulate_messages msgs).Nodup
    ∧ ∀ m, m ∈ accumulate_messages msgs ↔ m ∈ msgs := by
  constructor
  · exact nodup_accumulate_from msgs []
  · intro m
    rw [accumulate_messages, mem_accumulate_from]
    simp

/-- C4 witness: a concrete duplicated yield is emitted once. -/
theorem accumulate_messages_emits_each_once_witness :
    (accumulate_messages (["a", "a", "b"] : List String)).Nodup
    ∧ "a" ∈ accumulate_messages (["a", "a", "b"] : List String) :=
  ⟨(accumulate_messages_emits_each_once ["a", "a", "b"]).1,
   ((accumulate_messages_emits_each_once ["a", "a", "b"]).2 "a").mpr (by simp)⟩

/-- C2: a `ToolResult` with non-empty output renders to exactly that output
text, whatever the error and image fields and the visibility flag; a
`ToolResult` with empty (absent or `""`) output and non-empty error renders
to `"Error: "` followed by the error text. -/
theorem render_output_and_error_rules (b64decode : String → List UInt8)
    (sender : Sender) (r : ToolResult) (hide_images : Bool) :
    (∀ out, r.output = some out → out ≠ "" →
      _render_message b64decode sender (.toolResult r) hide_images
        = some (.text out))
    ∧ (optTruthy r.output = false → ∀ err, r.error = some err → err ≠ "" →
      _render_message b64decode sender (.toolResult r) hide_images
        = some (.text ("Error: " ++ err))) := by
  constructor
  · intro out hout hne
    have ho : optTruthy (some out) = true := by simp [optTruthy, hne]
    simp [_render_message, messageFalsy, is_tool_result, hasattrError,
      hasattrOutput, ho, hout]
  · intro hout err herr hne
    have he : optTruthy (some err) = true := by simp [optTruthy, hne]
    simp [_render_message, messageFalsy, is_tool_result, hasattrError,
      hasattrOutput, hout, he, herr]

/-- C2 witness: concrete tool results with an output, and with only an
error, rendered with the visibility flag set. -/
theorem render_output_and_error_rules_witness :
    _render_message b64Sample Sender.TOOL
        (.toolResult ⟨some "ok", some "e", some "img"⟩) true
      = some (.text "ok")
    ∧ _render_message b64Sample Sender.TOOL
        (.toolResult ⟨none, some "bad", some "img"⟩) true
      = some (.text ("Error: " ++ "bad")) := by
  refine ⟨?_, ?_⟩
  · exact (render_output_and_error_rules b64Sample Sender.TOOL
      ⟨some "ok", some "e", some "img"⟩ true).1 "ok" rfl (by decide)
  · exact (render_output_and_error_rules b64Sample Sender.TOOL
      ⟨none, some "bad", some "img"⟩ true).2 rfl "bad" rfl (by decide)

/-- C3: a `ToolResult` with empty output, empty error and a non-empty
base64 image renders to the decoded image bytes when `hide_images` is
false, and to nothing when `hide_images` is true. -/
theorem render_image_visibility (b64decode : String → List UInt8)
    (sender : Sender) (r : ToolResult) :
    optTruthy r.output = false → optTruthy r.error = false →
    ∀ img, r.base64_image = some img → img ≠ "" →
    (_render_message b64decode sender (.toolResult r) false
        = some (.bytes (b64decode img)))
    ∧ _render_message b64decode sender (.toolResult r) true = none := by
  intro hout herr img himg hne
  have hi : optTruthy (some img) = true := by simp [optTruthy, hne]
  constructor
  · simp [_render_message, messageFalsy, is_tool_result, hasattrError,
      hasattrOutput, hout, herr, himg, hi]
  · simp [_render_message, messageFalsy, is_tool_result, hasattrError,
      hasattrOutput, hout, herr, himg, hi]

/-- C3 witness: a concrete image-only tool result under both values of the
visibility flag. -/
theorem render_image_visibility_witness :
    (_render_message b64Sample Sender.TOOL
        (.toolResult ⟨none, none, some "aGk="⟩) false
      = some (.bytes (b64Sample "aGk=")))
    ∧ _render_message b64Sample Sender.TOOL
        (.toolResult ⟨none, none, some "aGk="⟩) true = none := by
  have h := render_image_visibility b64Sample Sender.TOOL
    ⟨none, none, some "aGk="⟩ rfl rfl "aGk=" rfl (by decide)
  exact ⟨h.1, h.2⟩

/-- C8: `save_to_storage` always returns normally — either the file is
written or the filesystem is left unchanged; on a read-only config
directory it leaves the filesystem unchanged; `load_from_storage` returns
`none` when the file is missing, when its stripped content is empty, and
when reading it raises; and after a failed save of a previously-absent key
to a read-only directory, loading that key still returns `none`. -/
theorem storage_degrades_without_raising (fs : FS) (filename data : String) :
    (save_to_storage fs filename data =
        { fs with
          files := fun n => if n = filename then some data else fs.files n }
      ∨ save_to_storage fs filename data = fs)
    ∧ (fs.dirWritable = false → save_to_storage fs filename data = fs)
    ∧ (fs.files filename = none → load_from_storage fs filename = none)
    ∧ (∀ c, fs.files filename = some c → c.trim = "" →
        load_from_storage fs filename = none)
    ∧ (∀ c, fs.files filename = some c → fs.readRaises filename = true →
        load_from_storage fs filename = none)
    ∧ (fs.dirWritable = false → fs.files filename = none →
        load_from_storage (save_to_storage fs filename data) filename
          = none) := by
  refine ⟨?_, ?_, ?_, ?_, ?_, ?_⟩
  · by_cases h : fs.dirWritable
    · left; simp [save_to_storage, h]
    · right; simp [save_to_storage, h]
  · intro h; simp [save_to_storage, h]
  · intro h; simp [load_from_storage, h]
  · intro c hc htrim; simp [load_from_storage, hc, htrim]
  · intro c hc hraise; simp [load_from_storage, hc, hraise]
  · intro hw habs
    simp [save_to_storage, hw, load_from_storage, habs]

/-- C8 witness: saving to the concrete read-only directory changes nothing
and the subsequent load is absent; loading a missing key is absent. -/
theorem storage_degrades_without_raising_witness :
    save_to_storage fsReadOnly "api_key" "secret" = fsReadOnly
    ∧ load_from_storage (save_to_storage fsReadOnly "api_key" "secret")
        "api_key" = none
    ∧ load_from_storage fsReadOnly "api_key" = none := by
  obtain ⟨_, h2, h3, _, _, h6⟩ :=
    storage_degrades_without_raising fsReadOnly "api_key" "secret"
  exact ⟨h2 rfl, h6 rfl rfl, h3 rfl⟩

/-- C5: from `DECIDE`, the loop reaches `DONE` exactly when the follow-up
planner reply contains the case-insensitive sentinel; `DONE` is reached
from no other situation; an agent-loop exception in `EXECUTE` moves to
`FAILED`; and from `FAILED` no further transition occurs, so no further
`EXECUTE` or `DECIDE` state (hence no event of theirs) follows. -/
theorem orch_done_iff_sentinel_failed_terminal (env : OrchEnv) :
    (∀ i m, (orchStep env (i, .DECIDE m)).2 = .DONE ↔
        sentinelTriggered (env.followup i m) = true)
    ∧ (∀ i s, (orchStep env (i, s)).2 = .DONE →
        s = .DONE
        ∨ ∃ m, s = .DECIDE m ∧ sentinelTriggered (env.followup i m) = true)
    ∧ (∀ i p, env.agentRaises i = true →
        orchStep env (i, .EXECUTE p) = (i, .FAILED))
    ∧ (∀ i n, orchIter env n (i, .FAILED) = (i, .FAILED)) := by
  refine ⟨?_, ?_, ?_, ?_⟩
  · intro i m
    by_cases h : sentinelTriggered (env.followup i m) = true
    · simp [orchStep, h]
    · simp [orchStep, h]
  · intro i s h
    match s with
    | .EXECUTE p =>
      by_cases hr : env.agentRaises i = true <;> simp [orchStep, hr] at h
    | .DECIDE m =>
      by_cases hs : sentinelTriggered (env.followup i m) = true
      · exact Or.inr ⟨m, rfl, hs⟩
      · simp [orchStep, hs] at h
    | .DONE => exact Or.inl rfl
    | .FAILED => simp [orchStep] at h
  · intro i p h
    simp [orchStep, h]
  · intro i n
    exact Function.iterate_fixed (by simp [orchStep]) n

/-- C5 witness: with a planner that answers the sentinel, one `DECIDE` step
reaches `DONE`; with a raising agent loop, one `EXECUTE` step reaches
`FAILED`, and `FAILED` is still in place three transitions later. -/
theorem orch_done_iff_sentinel_failed_terminal_witness :
    (orchStep orchEnvSentinel (0, .DECIDE "last")).2 = .DONE
    ∧ orchStep orchEnvSentinel (0, .EXECUTE "p0") = (0, .FAILED)
    ∧ orchIter orchEnvSentinel 3 (0, .FAILED) = (0, .FAILED) := by
  obtain ⟨h1, _, h3, h4⟩ := orch_done_iff_sentinel_failed_terminal orchEnvSentinel
  exact ⟨(h1 0 "last").mpr (by decide), h3 0 "p0" rfl, h4 0 3⟩

/-- C6 counterexample: on a concrete request with a well-formed JSON body
and no `anthropic-api-key` header, the handler does answer 401 — but only
after `await request.json()` has run, so body processing IS attempted,
contrary to the claim. -/
theorem process_input_api_body_parsed_counterexample :
    (process_input_api reqNoKey runClean).result = .unauthorized
    ∧ (process_input_api reqNoKey runClean).bodyParseAttempted = true := by
  exact ⟨rfl, rfl⟩

/-- C6 amended: when the `anthropic-api-key` header is missing, a request
whose body parses as JSON gets a 401 and the agent loop is never invoked,
but the body parse is attempted first; a request whose body does not parse
fails with the JSON parse error instead of a 401. -/
theorem process_input_api_missing_key_behavior (req : HttpRequest)
    (run : AdapterRun) :
    req.anthropicApiKey = none →
    ((∀ b, req.body = some b →
        process_input_api req run = ⟨true, false, .unauthorized⟩)
     ∧ (req.body = none →
        process_input_api req run = ⟨true, false, .parseError⟩)) := by
  intro h
  constructor
  · intro b hb
    simp [process_input_api, hb, h]
  · intro hb
    simp [process_input_api, hb]

/-- C6 witness: the concrete keyless request with a well-formed body gets
the 401 trace. -/
theorem process_input_api_missing_key_behavior_witness :
    process_input_api reqNoKey runClean = ⟨true, false, .unauthorized⟩ :=
  (process_input_api_missing_key_behavior reqNoKey runClean rfl).1
    ⟨some "hello"⟩ rfl

/-- Unfolding the relay generator into the deduplicated message list
followed by the terminal error chunk, if any. -/
theorem message_generator_from_eq (exc : Option String) :
    ∀ (l acc : List String),
      message_generator_from exc acc l
        = (accumulate_from acc l).map (fun m => "data: " ++ m ++ "\n\n")
          ++ (match exc with
              | none => []
              | some e => ["data: Error: " ++ e ++ "\n\n"]) := by
  intro l
  induction l with
  | nil =>
    intro acc
    cases exc <;> simp [message_generator_from, accumulate_from]
  | cons m rest ih =>
    intro acc
    by_cases hm : m ∈ acc
    · simp only [message_generator_from, accumulate_from, if_pos hm]
      exact ih acc
    · simp only [message_generator_from, accumulate_from, if_neg hm]
      rw [ih]
      simp

/-- C7: the relay's chunk list is one `data: <message>\n\n` chunk per
distinct message produced by the agent loop (each exactly once, and every
produced message appears), followed — exactly when the run raised — by the
single terminal `data: Error: <message>\n\n` chunk, after which there is
nothing. -/
theorem message_generator_chunk_shape (run : AdapterRun) :
    (accumulate_messages run.msgs).Nodup
    ∧ (∀ m, m ∈ accumulate_messages run.msgs ↔ m ∈ run.msgs)
    ∧ (run.exc = none →
        message_generator run
          = (accumulate_messages run.msgs).map
              (fun m => "data: " ++ m ++ "\n\n"))
    ∧ (∀ e, run.exc = some e →
        message_generator run
          = (accumulate_messages run.msgs).map
              (fun m => "data: " ++ m ++ "\n\n")
            ++ ["data: Error: " ++ e ++ "\n\n"]) := by
  refine ⟨nodup_accumulate_from run.msgs [], ?_, ?_, ?_⟩
  · intro m
    rw [accumulate_messages, mem_accumulate_from]
    simp
  · intro h
    simp only [message_generator]
    rw [h, message_generator_from_eq]
    simp [accumulate_messages]
  · intro e h
    simp only [message_generator]
    rw [h, message_generator_from_eq]
    simp [accumulate_messages]

/-- C7 witness: the concrete run yielding `"a"` twice and then raising
`"boom"` produces the deduplicated data chunks followed by the single
terminal error chunk. -/
theorem message_generator_chunk_shape_witness :
    message_generator runSample
      = ["data: a\n\n", "data: Error: boom\n\n"] := by
  rw [(message_generator_chunk_shape runSample).2.2.2 "boom" rfl]
  decide

/-- C10: `/api/process_input_api_using_model` builds its session state with
the hard-coded literal as credential: the key is the same literal whatever
the request's `user_input`, and the state does not depend on the request at
all. -/
theorem process_input_loop_hardcoded_key (env : Env) (u v : String) :
    (process_input_loop_state env u).api_key = some LOOP_HARDCODED_KEY
    ∧ process_input_loop_state env u = process_input_loop_state env v := by
  exact ⟨rfl, rfl⟩

/-- The first recorded `EXECUTE` iteration of the loop starts with exactly
the accumulator it was entered with. -/
theorem orchLoopRun_head (env : OrchEnv) :
    ∀ (fuel i : Nat) (msgs : List ChatMsg) (p : String) r,
      (orchLoopRun env fuel i msgs p)[0]? = some r → r = ⟨msgs, p⟩ := by
  intro fuel i msgs p r h
  cases fuel with
  | zero => simp [orchLoopRun] at h
  | succ fuel =>
    by_cases hr : env.agentRaises i = true
    · simp [orchLoopRun, hr] at h
      exact h.symm
    · by_cases hs :
          sentinelTriggered (env.followup i (env.agentLast i)) = true
      · simp [orchLoopRun, hr, hs] at h
        exact h.symm
      · simp [orchLoopRun, hr, hs] at h
        exact h.symm

/-- Consecutive recorded `EXECUTE` iterations: the later one starts with
the earlier one's history extended by the prompt appended as a user message
and by what the sampling loop appended. -/
theorem orchLoopRun_consecutive (env : OrchEnv) :
    ∀ (fuel i : Nat) (msgs : List ChatMsg) (p : String) (j : Nat)
      (r r' : ExecRecord),
      (orchLoopRun env fuel i msgs p)[j]? = some r →
      (orchLoopRun env fuel i msgs p)[j + 1]? = some r' →
      r'.startMessages
        = (r.startMessages ++ [ChatMsg.user r.prompt])
            ++ env.agentAppend (i + j) := by
  intro fuel
  induction fuel with
  | zero =>
    intro i msgs p j r r' h h'
    simp [orchLoopRun] at h
  | succ fuel ih =>
    intro i msgs p j r r' h h'
    by_cases hr : env.agentRaises i = true
    · simp [orchLoopRun, hr] at h'
    · by_cases hs :
          sentinelTriggered (env.followup i (env.agentLast i)) = true
      · simp [orchLoopRun, hr, hs] at h'
      · simp only [orchLoopRun, hr, hs, if_neg, Bool.false_eq_true,
          not_false_eq_true, if_false] at h h'
        cases j with
        | zero =>
          simp only [List.getElem?_cons_zero, Option.some.injEq] at h
          simp only [List.getElem?_cons_succ] at h'
          have hr' := orchLoopRun_head env fuel (i + 1)
            ((msgs ++ [ChatMsg.user p]) ++ env.agentAppend i)
            (env.followup i (env.agentLast i)) r' h'
          rw [hr', ← h]
          simp
        | succ k =>
          simp only [List.getElem?_cons_succ] at h h'
          have harith : i + (k + 1) = (i + 1) + k := by omega
          rw [harith]
          exact ih (i + 1) ((msgs ++ [ChatMsg.user p]) ++ env.agentAppend i)
            (env.followup i (env.agentLast i)) k r r' h h'

/-- C9 counterexample: with an agent loop that never raises and a planner
that never emits the sentinel, the second `EXECUTE` iteration starts with
the first iteration's prompt (and the messages the sampling loop appended)
still in `state["messages"]` — the Session State is not freshly initialized
per iteration. -/
theorem orch_history_nonfresh_counterexample :
    (orchExecRecords orchEnvLooping 2)[1]?
      = some ⟨[ChatMsg.user "p0", ChatMsg.external "assistant"], "continue"⟩
    ∧ ∀ r, (orchExecRecords orchEnvLooping 2)[1]? = some r →
        r.startMessages ≠ [] := by
  constructor
  · decide
  · intro r h
    have hx : (orchExecRecords orchEnvLooping 2)[1]?
        = some ⟨[ChatMsg.user "p0", ChatMsg.external "assistant"],
            "continue"⟩ := by decide
    rw [hx] at h
    cases h
    decide

/-- C9 amended: the Session State is initialized once, before the loop, so
the FIRST `EXECUTE` iteration starts with an empty message history; each
iteration appends its sub-task prompt as a user message, and every later
iteration starts with the previous iteration's history extended by that
prompt and by what the sampling loop appended — history persists across
iterations instead of being reset. -/
theorem orch_history_accumulates (env : OrchEnv) (fuel : Nat) :
    (∀ r, (orchExecRecords env fuel)[0]? = some r → r.startMessages = [])
    ∧ (∀ j r r', (orchExecRecords env fuel)[j]? = some r →
        (orchExecRecords env fuel)[j + 1]? = some r' →
        r'.startMessages
          = (r.startMessages ++ [ChatMsg.user r.prompt])
              ++ env.agentAppend j) := by
  constructor
  · intro r h
    rw [orchLoopRun_head env fuel 0 [] env.planReply r h]
  · intro j r r' h h'
    have hc := orchLoopRun_consecutive env fuel 0 [] env.planReply j r r' h h'
    simpa using hc

/-- C9 amended witness: in the concrete looping run, the first iteration
starts empty and the second starts with the accumulated history. -/
theorem orch_history_accumulates_witness :
    (⟨[], "p0"⟩ : ExecRecord).startMessages = []
    ∧ (⟨[ChatMsg.user "p0", ChatMsg.external "assistant"], "continue"⟩ :
          ExecRecord).startMessages
      = (((⟨[], "p0"⟩ : ExecRecord).startMessages
          ++ [ChatMsg.user (⟨[], "p0"⟩ : ExecRecord).prompt])
        ++ orchEnvLooping.agentAppend 0) := by
  obtain ⟨h1, h2⟩ := orch_history_accumulates orchEnvLooping 2
  exact ⟨h1 ⟨[], "p0"⟩ (by decide),
    h2 0 ⟨[], "p0"⟩
      ⟨[ChatMsg.user "p0", ChatMsg.external "assistant"], "continue"⟩
      (by decide) (by decide)⟩

end App
